import Mathlib

/-!
Verification of the VoIP signaling relay and call-session controller.

The development shallowly embeds the two components of the repository:

* `Relay` models `server/server.js`: the WebSocket relay's `message` handler
  (a `try`/`catch` around `JSON.parse` and a `switch` on the parsed `type`,
  broadcasting to every other client whose `readyState` is `OPEN`).
* `RTC` models the peer-connection bookkeeping of
  `webrtc-voip/src/VoIPApp.jsx` (`useWebRTC`): `createPeerConnection` (which
  closes the previous connection before installing a fresh one), `createOffer`,
  `handleOffer`, `addIceCandidate` and the optional-chained
  `setRemoteDescription` of the `answer` case.
* `Controller` models the `VoIPApp` component's message handler
  (`handleWebSocketMessage`), the target filter
  (`if (message.target && message.target !== clientId) return`), `sendMessage`
  (which appends `from` and drops the send when the socket is not open),
  `initiateCall` and the call-button guard.
* `Identity` models `generateClientId` (localStorage-persisted client id,
  JavaScript truthiness on the stored value) and the reconnect loop of
  `useWebSocket` (every `onopen` sends a `register` built from the client id
  captured at mount).

JavaScript absence (`undefined`/`null`) is modelled with `Option`; string
truthiness (`""` is falsy) is made explicit wherever the source relies on it.
-/

set_option maxHeartbeats 1000000

/-- `WebSocket.readyState` constants. `opened` is `WebSocket.OPEN`. -/
inductive ReadyState where
  | connecting
  | opened
  | closing
  | closed
deriving DecidableEq, Repr

/-- An opaque session description (`RTCSessionDescription`): its `type`
("offer"/"answer") and an identifying token standing for the SDP body. -/
structure SessionDesc where
  sdpType : String
  descId : Nat
deriving DecidableEq, Repr

/-- The serialized ICE-candidate fields produced by `serializeIceCandidate`
and consumed by `new RTCIceCandidate(candidateData)`. -/
structure CandidateData where
  candidate : Option String := none
  sdpMid : Option String := none
  sdpMLineIndex : Option Int := none
  usernameFragment : Option String := none
deriving DecidableEq, Repr

/-- `new RTCIceCandidate(c)` throws (caught and logged by `addIceCandidate`)
when both `sdpMid` and `sdpMLineIndex` are absent; in particular it throws on
an empty candidate object. -/
def CandidateData.wellFormed (c : CandidateData) : Bool :=
  c.sdpMid.isSome || c.sdpMLineIndex.isSome

/-- A parsed signaling wire message: the JSON fields inspected anywhere in the
system. Absent JSON fields are `none`. -/
structure SignalingMessage where
  type? : Option String := none
  target : Option String := none
  fromId : Option String := none
  clientId? : Option String := none
  offer : Option SessionDesc := none
  answer : Option SessionDesc := none
  candidate : Option CandidateData := none
deriving DecidableEq, Repr

namespace Relay

/-- A connected WebSocket as the relay sees it: `id` stands for the object
identity used by `client !== socket`, plus its `readyState`. -/
structure Client where
  id : Nat
  readyState : ReadyState
deriving DecidableEq, Repr

/-- Outcome of the `message` handler's `try`/`switch` in `server.js`:
the `catch` arm, the broadcast arm (`case 'offer' | 'answer' | 'candidate'`),
or the `default` arm (`console.warn('Unhandled message type', ...)`). -/
inductive Action where
  | parseFailed
  | broadcast (m : SignalingMessage)
  | unhandled (t : Option String)
deriving DecidableEq, Repr

/-- The `switch (parsedMessage.type)` of `server.js`. `none` models a raw
payload on which `JSON.parse` threw (caught by the surrounding `catch`). -/
def classifyMessage : Option SignalingMessage → Action
  | none => .parseFailed
  | some m =>
    if m.type? = some "offer" ∨ m.type? = some "answer" ∨ m.type? = some "candidate" then
      .broadcast m
    else
      .unhandled m.type?

/-- The broadcast loop's guard:
`client !== socket && client.readyState === WebSocket.OPEN`. -/
def broadcastTargets (clients : List Client) (sender : Client) : List Client :=
  clients.filter fun c => decide (c.id ≠ sender.id) && decide (c.readyState = ReadyState.opened)

/-- One `client.send(JSON.stringify(parsedMessage))` call. -/
structure SendEvent where
  dest : Nat
  payload : SignalingMessage
deriving DecidableEq, Repr

/-- The sends performed by one invocation of the `message` handler. -/
def relaySends (clients : List Client) (sender : Client)
    (parsed : Option SignalingMessage) : List SendEvent :=
  match classifyMessage parsed with
  | .broadcast m => (broadcastTargets clients sender).map fun c => ⟨c.id, m⟩
  | _ => []

/-- The relay's whole mutable state: the live connection table `wss.clients`. -/
structure RelayState where
  clients : List Client
deriving DecidableEq, Repr

/-- One invocation of the `message` handler: it performs sends but never
mutates the connection table and never closes a channel (reflecting that the
handler body contains no `close()` call and no table update, and that the
`try`/`catch` keeps it from throwing). -/
def relayStep (st : RelayState) (sender : Client)
    (parsed : Option SignalingMessage) : RelayState × List SendEvent :=
  (st, relaySends st.clients sender parsed)

end Relay

namespace RTC

/-- An `RTCPeerConnection` as the controller observes it. -/
structure PeerConnection where
  id : Nat
  closed : Bool := false
  localDesc : Option SessionDesc := none
  remoteDesc : Option SessionDesc := none
  candidates : List CandidateData := []
deriving DecidableEq, Repr

/-- The `useWebRTC` hook's connection bookkeeping: every connection ever
created (with its closed flag), the id held by `peerConnectionRef.current`,
a fresh-id counter standing for object allocation, and whether `localStream`
is non-null. -/
structure RTCState where
  pcs : List PeerConnection := []
  currentPc : Option Nat := none
  nextId : Nat := 0
  localStream : Bool := false
deriving DecidableEq, Repr

/-- Effect of `pc.close()` on the connection with identity `i`. -/
def closePcList (pcs : List PeerConnection) (i : Nat) : List PeerConnection :=
  pcs.map fun p => if p.id = i then { p with closed := true } else p

/-- Apply `f` to the connection with identity `i`. -/
def updatePc (pcs : List PeerConnection) (i : Nat)
    (f : PeerConnection → PeerConnection) : List PeerConnection :=
  pcs.map fun p => if p.id = i then f p else p

/-- `createPeerConnection` from `VoIPApp.jsx`: close the existing connection
if there is one, allocate a fresh `RTCPeerConnection`, store it in
`peerConnectionRef.current`, and return it. -/
def createPeerConnection (st : RTCState) : RTCState × Nat :=
  let pcs :=
    match st.currentPc with
    | some i => closePcList st.pcs i
    | none => st.pcs
  let pc : PeerConnection := { id := st.nextId }
  ({ st with pcs := pcs ++ [pc], currentPc := some st.nextId, nextId := st.nextId + 1 },
   st.nextId)

/-- `pc.setLocalDescription(d)` on connection `i`. -/
def setLocalDescriptionOn (st : RTCState) (i : Nat) (d : SessionDesc) : RTCState :=
  { st with pcs := updatePc st.pcs i fun p => { p with localDesc := some d } }

/-- `pc.setRemoteDescription(new RTCSessionDescription(d))` on connection `i`;
the description is the (possibly absent) message payload. -/
def setRemoteDescriptionOn (st : RTCState) (i : Nat) (d : Option SessionDesc) : RTCState :=
  { st with pcs := updatePc st.pcs i fun p => { p with remoteDesc := d } }

/-- `peerConnectionRef.current?.setRemoteDescription(...)` of the `answer`
case: the optional chaining skips the whole call when no connection exists. -/
def setRemoteDescriptionOpt (st : RTCState) (d : Option SessionDesc) : RTCState :=
  match st.currentPc with
  | some i => setRemoteDescriptionOn st i d
  | none => st

/-- The description returned by `pc.createOffer(...)`. -/
def createOfferDesc (i : Nat) : SessionDesc := ⟨"offer", i⟩

/-- The description returned by `pc.createAnswer()`. -/
def createAnswerDesc (i : Nat) : SessionDesc := ⟨"answer", i⟩

/-- `createOffer(targetClientId)` from `VoIPApp.jsx`: replace the peer
connection (closing any prior one), attach local tracks (no effect on the
connection table), create the offer and set it as local description. -/
def createOffer (st : RTCState) : RTCState × SessionDesc :=
  let res := createPeerConnection st
  let offer := createOfferDesc res.2
  (setLocalDescriptionOn res.1 res.2 offer, offer)

/-- `handleOffer(offer, fromClientId)` from `VoIPApp.jsx`: replace the peer
connection (closing any prior one), attach tracks, apply the remote offer,
create the answer and set it as local description. -/
def handleOffer (st : RTCState) (offer : Option SessionDesc) : RTCState × SessionDesc :=
  let res := createPeerConnection st
  let st2 := setRemoteDescriptionOn res.1 res.2 offer
  let answer := createAnswerDesc res.2
  (setLocalDescriptionOn st2 res.2 answer, answer)

/-- `addIceCandidate(candidateData)` from `VoIPApp.jsx`: guarded by
`if (peerConnectionRef.current && candidateData)`; the
`new RTCIceCandidate`/`addIceCandidate` failure on malformed data is caught
inside the function and only logged. -/
def addIceCandidate (st : RTCState) (candidateData : Option CandidateData) : RTCState :=
  match st.currentPc, candidateData with
  | some i, some c =>
    if c.wellFormed then
      { st with pcs := updatePc st.pcs i fun p => { p with candidates := p.candidates ++ [c] } }
    else st
  | _, _ => st

/-- Identities of the peer connections that have been created and not closed. -/
def liveIds (st : RTCState) : List Nat :=
  (st.pcs.filter fun p => !p.closed).map fun p => p.id

/-- Well-formedness of the connection bookkeeping, established at mount time
(`peerConnectionRef.current` starts `null`) and preserved by every operation:
ids are below the allocation counter and duplicate-free, every live connection
is the current one, and the current id is a real allocation. -/
structure Inv (st : RTCState) : Prop where
  fresh : ∀ p ∈ st.pcs, p.id < st.nextId
  nodup : (st.pcs.map fun p => p.id).Nodup
  live_current : ∀ p ∈ st.pcs, p.closed = false → st.currentPc = some p.id
  current_valid : ∀ i, st.currentPc = some i → i < st.nextId

end RTC

namespace Controller

/-- The controller's `callState` (`useState('idle')`). -/
inductive CallState where
  | idle
  | calling
  | receiving
  | connected
deriving DecidableEq, Repr

/-- The observable state of one `VoIPApp` instance. -/
structure CtrlState where
  clientId : String
  socketOpen : Bool := false
  callState : CallState := .idle
  mediaReady : Bool := false
  targetClientId : Option String := none
  rtc : RTC.RTCState := {}
deriving DecidableEq, Repr

/-- `sendMessage` from `useWebSocket`: when the socket is open, append
`from: clientId` and send; otherwise the message is silently dropped. -/
def sendMessage (st : CtrlState) (m : SignalingMessage) : List SignalingMessage :=
  if st.socketOpen then [{ m with fromId := some st.clientId }] else []

/-- The inbound filter `if (message.target && message.target !== clientId)
return;` — note the JavaScript truthiness test: an empty-string `target` is
falsy, so such a message is not filtered. -/
def targetMismatch (target : Option String) (clientId : String) : Bool :=
  match target with
  | some t => decide (t ≠ "") && decide (t ≠ clientId)
  | none => false

/-- `handleWebSocketMessage` from `VoIPApp.jsx`: the target filter followed by
the `switch (message.type)` with cases `register`, `offer`, `answer` and
`ice-candidate` (and no default). Returns the new state and the messages
passed to `sendMessage`'s socket. -/
def handleWebSocketMessage (st : CtrlState) (m : SignalingMessage) :
    CtrlState × List SignalingMessage :=
  if targetMismatch m.target st.clientId then (st, [])
  else if m.type? = some "register" then
    (st, [])
  else if m.type? = some "offer" then
    let res := RTC.handleOffer st.rtc m.offer
    let st1 := { st with callState := .receiving, targetClientId := m.fromId, rtc := res.1 }
    (st1, sendMessage st1 { type? := some "answer", answer := some res.2, target := m.fromId })
  else if m.type? = some "answer" then
    ({ st with callState := .connected, rtc := RTC.setRemoteDescriptionOpt st.rtc m.answer }, [])
  else if m.type? = some "ice-candidate" then
    ({ st with rtc := RTC.addIceCandidate st.rtc m.candidate }, [])
  else
    (st, [])

/-- `initiateCall` from `VoIPApp.jsx` (happy path): set `callState` to
`calling`, create the offer (replacing the peer connection) and send it at
`targetClientId`. -/
def initiateCall (st : CtrlState) : CtrlState × List SignalingMessage :=
  let st1 := { st with callState := .calling }
  let res := RTC.createOffer st1.rtc
  let st2 := { st1 with rtc := res.1 }
  (st2, sendMessage st2 { type? := some "offer", offer := some res.2, target := st.targetClientId })

/-- JavaScript truthiness of `targetClientId` (`!targetClientId`). -/
def optStringFalsy : Option String → Bool
  | none => true
  | some s => decide (s = "")

/-- `isCallButtonDisabled` from `VoIPApp.jsx`. -/
def isCallButtonDisabled (st : CtrlState) : Bool :=
  !st.socketOpen || !st.mediaReady || decide (st.callState ≠ .idle) ||
    optStringFalsy st.targetClientId

/-- An event driving the controller's state machine: the user clicking the
call button, or an inbound signaling message. -/
inductive Event where
  | localInitiate
  | inbound (m : SignalingMessage)

/-- One step of the controller. -/
def ctrlStep (st : CtrlState) (e : Event) : CtrlState × List SignalingMessage :=
  match e with
  | .localInitiate => initiateCall st
  | .inbound m => handleWebSocketMessage st m

end Controller

namespace Identity

/-- `Math.floor(1000 + Math.random() * 9000).toString()` for a draw
`rand / 9000` of `Math.random()`. -/
def freshId (rand : Nat) : String := Nat.repr (1000 + rand % 9000)

/-- `generateClientId` from `VoIPApp.jsx`: read `voip-client-id` from
localStorage; `if (!clientId)` (absent or empty string, by JavaScript
truthiness) generate a fresh id and store it. Returns the id and the
localStorage contents afterwards. -/
def generateClientId (store : Option String) (rand : Nat) : String × Option String :=
  match store with
  | some id => if id = "" then (freshId rand, some (freshId rand)) else (id, some id)
  | none => (freshId rand, some (freshId rand))

/-- A mounted `VoIPApp`: `useState(generateClientId())` fixes the client id
for the lifetime of the component. -/
structure Component where
  clientId : String
  store : Option String

/-- Mounting the component against the current localStorage contents. -/
def mountComponent (store : Option String) (rand : Nat) : Component :=
  let res := generateClientId store rand
  ⟨res.1, res.2⟩

/-- The `register` message sent by `ws.onopen` in `createWebSocket`. -/
def registerMsg (clientId : String) : SignalingMessage :=
  { type? := some "register", clientId? := some clientId }

/-- The fixed reconnection delay `setTimeout(createWebSocket, 3000)`. -/
def reconnectDelayMs : Nat := 3000

/-- Lifecycle events of the signaling channel: a (re)connection completing
(`onopen`) or the channel dropping (`onclose`, which schedules another
`createWebSocket` after `reconnectDelayMs`). -/
inductive WsEvent where
  | sockOpened
  | dropped

/-- The messages the `useWebSocket` hook sends over a lifecycle trace: each
`onopen` sends `register` built from the component's captured client id. -/
def wsRun (c : Component) : List WsEvent → List SignalingMessage
  | [] => []
  | .sockOpened :: rest => registerMsg c.clientId :: wsRun c rest
  | .dropped :: rest => wsRun c rest

end Identity

/-! Concrete fixtures used by counterexamples and witnesses. -/

/-- An open relay connection. -/
def clientA : Relay.Client := ⟨1, .opened⟩

/-- A second open relay connection. -/
def clientB : Relay.Client := ⟨2, .opened⟩

/-- A third connection that is not open. -/
def clientC : Relay.Client := ⟨3, .closing⟩

/-- The ICE-candidate wire message the repository's client actually sends. -/
def iceCandidateWire : SignalingMessage :=
  { type? := some "ice-candidate"
    candidate := some { candidate := some "candidate:0 1 UDP 2122252543 192.0.2.1 54400 typ host"
                        sdpMid := some "0", sdpMLineIndex := some 0 }
    target := some "2222", fromId := some "1111" }

/-- The `register` wire message sent on connect. -/
def registerWire : SignalingMessage :=
  { type? := some "register", clientId? := some "1111" }

/-- An idle controller with an open socket, no peer connection yet. -/
def ctrl0 : Controller.CtrlState :=
  { clientId := "1111", socketOpen := true, callState := .idle, mediaReady := true }

/-- An answer wire message targeted at `ctrl0`. -/
def answerWire : SignalingMessage :=
  { type? := some "answer", answer := some ⟨"answer", 7⟩
    target := some "1111", fromId := some "2222" }

/-- An answer wire message whose `target` field is present but empty. -/
def emptyTargetAnswer : SignalingMessage :=
  { type? := some "answer", answer := some ⟨"answer", 9⟩
    target := some "", fromId := some "2222" }

/-- An offer wire message targeted at `ctrl0`. -/
def offerWire : SignalingMessage :=
  { type? := some "offer", offer := some ⟨"offer", 4⟩
    target := some "1111", fromId := some "2222" }

/-- An answer wire message targeted at a different client than `ctrl0`. -/
def answerOther : SignalingMessage :=
  { type? := some "answer", answer := some ⟨"answer", 3⟩
    target := some "9999", fromId := some "2222" }

/-- A controller after a local reset: idle, with a closed former peer
connection and `peerConnectionRef.current` cleared. -/
def ctrlReset : Controller.CtrlState :=
  { clientId := "1111", socketOpen := true, callState := .idle, mediaReady := true
    rtc := { pcs := [{ id := 0, closed := true }], currentPc := none, nextId := 1 } }

/-- An ICE-candidate wire message targeted at `ctrl0`/`ctrlReset`. -/
def iceWire : SignalingMessage :=
  { type? := some "ice-candidate"
    candidate := some { candidate := some "candidate:1 1 UDP 1 198.51.100.7 49203 typ host"
                        sdpMid := some "0", sdpMLineIndex := some 0 }
    target := some "1111", fromId := some "2222" }

/-- A controller in the middle of a call: connected, with one live peer
connection. -/
def ctrlBusy : Controller.CtrlState :=
  { clientId := "1111", socketOpen := true, callState := .connected, mediaReady := true
    targetClientId := some "2222", rtc := (RTC.createOffer {}).1 }

/-! Claim theorems. -/

/-- Claim C1: the spec states that an inbound message of parsed type 'offer',
'answer' or 'ice-candidate' is forwarded to all other connected channels, and
in particular that 'ice-candidate' is not dropped as unhandled. The relay's
switch matches only 'offer' | 'answer' | 'candidate': with two open clients,
the 'ice-candidate' wire message the repository's own controller sends falls
to the default (unhandled) branch and nothing is forwarded, while an
otherwise-identical 'offer' is broadcast to the other client. -/
theorem C1_ice_candidate_dropped :
    Relay.classifyMessage (some iceCandidateWire) =
      Relay.Action.unhandled (some "ice-candidate") ∧
    Relay.relaySends [clientA, clientB] clientA (some iceCandidateWire) = [] ∧
    Relay.relaySends [clientA, clientB] clientA
        (some { iceCandidateWire with type? := some "offer" }) =
      [⟨2, { iceCandidateWire with type? := some "offer" }⟩] := by
  refine ⟨by decide, by decide, by decide⟩

/-- Claim C2 counterexample: a 'register' message takes the relay's default
branch: it is classified as an unhandled type, and the step leaves the
connection table unchanged and sends nothing — no mapping is recorded (the
relay keeps no identity state at all). -/
theorem C2_register_falls_to_default :
    Relay.classifyMessage (some registerWire) =
      Relay.Action.unhandled (some "register") ∧
    Relay.relayStep ⟨[clientA, clientB]⟩ clientA (some registerWire) =
      (⟨[clientA, clientB]⟩, []) := by
  refine ⟨by decide, by decide⟩

/-- Claim C2 (amended): when the relay receives a message with type
'register' it treats it as an unhandled type — the switch falls to the
default branch, the connection table is unchanged and nothing is sent; no
ClientIdentity-to-channel mapping is recorded, since the relay keeps no
identity state. -/
theorem C2_register_unhandled (st : Relay.RelayState) (sender : Relay.Client)
    (m : SignalingMessage) (h : m.type? = some "register") :
    Relay.classifyMessage (some m) = Relay.Action.unhandled (some "register") ∧
    Relay.relayStep st sender (some m) = (st, []) := by
  have hclass : Relay.classifyMessage (some m) =
      Relay.Action.unhandled (some "register") := by
    show (if m.type? = some "offer" ∨ m.type? = some "answer" ∨ m.type? = some "candidate"
          then Relay.Action.broadcast m else Relay.Action.unhandled m.type?) =
        Relay.Action.unhandled (some "register")
    rw [if_neg (by simp [h]), h]
  exact ⟨hclass, by simp [Relay.relayStep, Relay.relaySends, hclass]⟩

/-- Claim C2 witness: the amended statement at a concrete register message. -/
theorem C2_register_unhandled_witness :
    Relay.classifyMessage (some registerWire) =
      Relay.Action.unhandled (some "register") ∧
    Relay.relayStep ⟨[clientB]⟩ clientA (some registerWire) = (⟨[clientB]⟩, []) :=
  C2_register_unhandled ⟨[clientB]⟩ clientA registerWire rfl

/-- Claim C6: for every relay broadcast of a forwarded message the recipient
set is exactly the other currently-open connections: membership in the
broadcast target list is characterized by being another open client, every
send carries the unmodified payload and never goes back to the sender, and
every other open client does receive the message. -/
theorem C6_broadcast_recipients (clients : List Relay.Client) (sender : Relay.Client)
    (m : SignalingMessage)
    (h : m.type? = some "offer" ∨ m.type? = some "answer" ∨ m.type? = some "candidate") :
    (∀ c, c ∈ Relay.broadcastTargets clients sender ↔
        c ∈ clients ∧ c.id ≠ sender.id ∧ c.readyState = ReadyState.opened) ∧
    (∀ e ∈ Relay.relaySends clients sender (some m), e.payload = m ∧ e.dest ≠ sender.id) ∧
    (∀ c ∈ clients, c.id ≠ sender.id → c.readyState = ReadyState.opened →
        Relay.SendEvent.mk c.id m ∈ Relay.relaySends clients sender (some m)) := by
  have hclass : Relay.classifyMessage (some m) = Relay.Action.broadcast m := by
    show (if m.type? = some "offer" ∨ m.type? = some "answer" ∨ m.type? = some "candidate"
          then Relay.Action.broadcast m else Relay.Action.unhandled m.type?) =
        Relay.Action.broadcast m
    exact if_pos h
  have hmem : ∀ c, c ∈ Relay.broadcastTargets clients sender ↔
      c ∈ clients ∧ c.id ≠ sender.id ∧ c.readyState = ReadyState.opened := by
    intro c
    simp [Relay.broadcastTargets, List.mem_filter]
  have hsends : Relay.relaySends clients sender (some m) =
      (Relay.broadcastTargets clients sender).map fun c => ⟨c.id, m⟩ := by
    simp [Relay.relaySends, hclass]
  refine ⟨hmem, ?_, ?_⟩
  · intro e he
    rw [hsends] at he
    obtain ⟨c, hc, rfl⟩ := List.mem_map.mp he
    exact ⟨rfl, ((hmem c).mp hc).2.1⟩
  · intro c hc hne hopen
    rw [hsends]
    exact List.mem_map_of_mem _ ((hmem c).mpr ⟨hc, hne, hopen⟩)

/-- Claim C6 witness: with three connections (one of them not open), a
'candidate' broadcast from the first client reaches the second. -/
theorem C6_broadcast_recipients_witness :
    Relay.SendEvent.mk 2 { iceCandidateWire with type? := some "candidate" } ∈
      Relay.relaySends [clientA, clientB, clientC] clientA
        (some { iceCandidateWire with type? := some "candidate" }) :=
  (C6_broadcast_recipients [clientA, clientB, clientC] clientA
      { iceCandidateWire with type? := some "candidate" }
      (Or.inr (Or.inr rfl))).2.2 clientB (by decide) (by decide) (by decide)

/-- Claim C7: an inbound payload that is not valid JSON, or that parses to an
object whose type is outside the forwarded set, leaves the relay unchanged:
the connection table is untouched (no channel is closed or removed) and
nothing is sent — the handler's catch/default arms merely log. -/
theorem C7_malformed_input_resilience (st : Relay.RelayState) (sender : Relay.Client)
    (parsed : Option SignalingMessage)
    (h : parsed = none ∨ ∃ m, parsed = some m ∧ m.type? ≠ some "offer" ∧
         m.type? ≠ some "answer" ∧ m.type? ≠ some "candidate") :
    Relay.relayStep st sender parsed = (st, []) := by
  rcases h with rfl | ⟨m, rfl, h1, h2, h3⟩
  · rfl
  · have hclass : Relay.classifyMessage (some m) = Relay.Action.unhandled m.type? := by
      show (if m.type? = some "offer" ∨ m.type? = some "answer" ∨ m.type? = some "candidate"
            then Relay.Action.broadcast m else Relay.Action.unhandled m.type?) =
          Relay.Action.unhandled m.type?
      exact if_neg (by tauto)
    simp [Relay.relayStep, Relay.relaySends, hclass]

/-- Claim C7 witness: a non-JSON payload with three live connections. -/
theorem C7_malformed_input_resilience_witness :
    Relay.relayStep ⟨[clientA, clientB, clientC]⟩ clientA none =
      (⟨[clientA, clientB, clientC]⟩, []) :=
  C7_malformed_input_resilience ⟨[clientA, clientB, clientC]⟩ clientA none (Or.inl rfl)

namespace RTC

theorem mem_closePcList {pcs : List PeerConnection} {i : Nat} {p : PeerConnection}
    (h : p ∈ closePcList pcs i) :
    ∃ q ∈ pcs, p = if q.id = i then { q with closed := true } else q := by
  obtain ⟨q, hq, rfl⟩ := List.mem_map.mp h
  exact ⟨q, hq, rfl⟩

theorem mem_updatePc {pcs : List PeerConnection} {i : Nat}
    {f : PeerConnection → PeerConnection} {p : PeerConnection}
    (h : p ∈ updatePc pcs i f) :
    ∃ q ∈ pcs, p = if q.id = i then f q else q := by
  obtain ⟨q, hq, rfl⟩ := List.mem_map.mp h
  exact ⟨q, hq, rfl⟩

theorem closePcList_map_id (pcs : List PeerConnection) (i : Nat) :
    (closePcList pcs i).map (fun p => p.id) = pcs.map fun p => p.id := by
  induction pcs with
  | nil => rfl
  | cons q rest ih =>
    show ((if q.id = i then { q with closed := true } else q) :: closePcList rest i).map
        (fun p => p.id) = q.id :: rest.map fun p => p.id
    rw [List.map_cons, ih]
    congr 1
    split <;> rfl

theorem updatePc_map_id (pcs : List PeerConnection) (i : Nat)
    (f : PeerConnection → PeerConnection) (hf : ∀ p, (f p).id = p.id) :
    (updatePc pcs i f).map (fun p => p.id) = pcs.map fun p => p.id := by
  induction pcs with
  | nil => rfl
  | cons q rest ih =>
    show ((if q.id = i then f q else q) :: updatePc rest i f).map
        (fun p => p.id) = q.id :: rest.map fun p => p.id
    rw [List.map_cons, ih]
    congr 1
    split
    · exact hf q
    · rfl

theorem liveIds_updatePc (st : RTCState) (i : Nat) (f : PeerConnection → PeerConnection)
    (hf : ∀ p, (f p).id = p.id ∧ (f p).closed = p.closed) :
    liveIds { st with pcs := updatePc st.pcs i f } = liveIds st := by
  show ((updatePc st.pcs i f).filter fun p => !p.closed).map (fun p => p.id) =
      (st.pcs.filter fun p => !p.closed).map fun p => p.id
  induction st.pcs with
  | nil => rfl
  | cons q rest ih =>
    have hcl : (if q.id = i then f q else q).closed = q.closed := by
      split
      · exact (hf q).2
      · rfl
    have hid : (if q.id = i then f q else q).id = q.id := by
      split
      · exact (hf q).1
      · rfl
    show (((if q.id = i then f q else q) :: updatePc rest i f).filter
        fun p => !p.closed).map (fun p => p.id) = _
    rw [List.filter_cons, List.filter_cons, hcl]
    cases hc : q.closed with
    | true =>
      simp only [Bool.not_true]
      rw [if_neg (by decide), if_neg (by decide)]
      exact ih
    | false =>
      simp only [Bool.not_false, if_true]
      rw [List.map_cons, List.map_cons, ih, hid]

theorem inv_updatePc (st : RTCState) (i : Nat) (f : PeerConnection → PeerConnection)
    (hf : ∀ p, (f p).id = p.id ∧ (f p).closed = p.closed) (h : Inv st) :
    Inv { st with pcs := updatePc st.pcs i f } := by
  constructor
  · intro p hp
    obtain ⟨q, hq, rfl⟩ := mem_updatePc hp
    have : (if q.id = i then f q else q).id = q.id := by
      split
      · exact (hf q).1
      · rfl
    rw [this]
    exact h.fresh q hq
  · show ((updatePc st.pcs i f).map fun p => p.id).Nodup
    rw [updatePc_map_id st.pcs i f fun p => (hf p).1]
    exact h.nodup
  · intro p hp hc
    obtain ⟨q, hq, rfl⟩ := mem_updatePc hp
    have hid : (if q.id = i then f q else q).id = q.id := by
      split
      · exact (hf q).1
      · rfl
    have hcl : (if q.id = i then f q else q).closed = q.closed := by
      split
      · exact (hf q).2
      · rfl
    rw [hid]
    exact h.live_current q hq (hcl ▸ hc)
  · exact h.current_valid

theorem updatePc_allClosed (pcs : List PeerConnection) (i : Nat)
    (f : PeerConnection → PeerConnection)
    (hf : ∀ p, (f p).id = p.id ∧ (f p).closed = p.closed) (j : Nat)
    (h : ∀ p ∈ pcs, p.id = j → p.closed = true) :
    ∀ p ∈ updatePc pcs i f, p.id = j → p.closed = true := by
  intro p hp hj
  obtain ⟨q, hq, rfl⟩ := mem_updatePc hp
  have hid : (if q.id = i then f q else q).id = q.id := by
    split
    · exact (hf q).1
    · rfl
  have hcl : (if q.id = i then f q else q).closed = q.closed := by
    split
    · exact (hf q).2
    · rfl
  rw [hcl]
  exact h q hq (hid ▸ hj)

theorem allClosed_before_new (st : RTCState) (h : Inv st) :
    ∀ p ∈ (match st.currentPc with
            | some i => closePcList st.pcs i
            | none => st.pcs), p.closed = true := by
  intro p hp
  cases hcur : st.currentPc with
  | none =>
    rw [hcur] at hp
    by_contra hc
    simp only [Bool.not_eq_true] at hc
    have := h.live_current p hp hc
    rw [hcur] at this
    exact Option.noConfusion this
  | some i =>
    rw [hcur] at hp
    obtain ⟨q, hq, rfl⟩ := mem_closePcList hp
    by_cases hqi : q.id = i
    · rw [if_pos hqi]
    · rw [if_neg hqi]
      by_contra hc
      simp only [Bool.not_eq_true] at hc
      have := h.live_current q hq hc
      rw [hcur] at this
      exact hqi (Option.some.injEq .. ▸ this.symm ▸ rfl)

theorem createPeerConnection_spec (st : RTCState) (h : Inv st) :
    Inv (createPeerConnection st).1 ∧
    liveIds (createPeerConnection st).1 = [st.nextId] ∧
    (∀ i, st.currentPc = some i →
      ∀ p ∈ (createPeerConnection st).1.pcs, p.id = i → p.closed = true) := by
  set A := (match st.currentPc with
            | some i => closePcList st.pcs i
            | none => st.pcs) with hA
  have hAclosed : ∀ p ∈ A, p.closed = true := allClosed_before_new st h
  have hAids : A.map (fun p => p.id) = st.pcs.map fun p => p.id := by
    rw [hA]
    cases st.currentPc with
    | none => rfl
    | some i => exact closePcList_map_id st.pcs i
  have hAfresh : ∀ p ∈ A, p.id < st.nextId := by
    intro p hp
    have : p.id ∈ A.map fun p => p.id := List.mem_map_of_mem _ hp
    rw [hAids] at this
    obtain ⟨q, hq, hqid⟩ := List.mem_map.mp this
    exact hqid ▸ h.fresh q hq
  have hpcs : (createPeerConnection st).1.pcs = A ++ [{ id := st.nextId }] := rfl
  have hcur : (createPeerConnection st).1.currentPc = some st.nextId := rfl
  have hnext : (createPeerConnection st).1.nextId = st.nextId + 1 := rfl
  refine ⟨⟨?_, ?_, ?_, ?_⟩, ?_, ?_⟩
  · intro p hp
    rw [hpcs] at hp
    rw [hnext]
    rcases List.mem_append.mp hp with hp | hp
    · exact Nat.lt_succ_of_lt (hAfresh p hp)
    · rw [List.mem_singleton.mp hp]
      exact Nat.lt_succ_self _
  · rw [hpcs, List.map_append, List.nodup_append, hAids]
    refine ⟨h.nodup, List.nodup_singleton _, ?_⟩
    intro x hx hx1
    obtain ⟨q, hq, hqid⟩ := List.mem_map.mp hx
    have : x = st.nextId := by
      simpa using hx1
    exact absurd (hqid ▸ this ▸ h.fresh q hq) (Nat.lt_irrefl _)
  · intro p hp hc
    rw [hpcs] at hp
    rw [hcur]
    rcases List.mem_append.mp hp with hp | hp
    · exact absurd (hAclosed p hp) (by simp [hc])
    · rw [List.mem_singleton.mp hp]
  · intro i hi
    rw [hcur] at hi
    cases Option.some.inj hi
    rw [hnext]
    exact Nat.lt_succ_self _
  · show (((createPeerConnection st).1.pcs.filter fun p => !p.closed).map fun p => p.id) = _
    rw [hpcs, List.filter_append]
    have h1 : A.filter (fun p => !p.closed) = [] := by
      rw [List.filter_eq_nil_iff]
      intro p hp
      simp [hAclosed p hp]
    rw [h1]
    rfl
  · intro i hi p hp hpid
    rw [hpcs] at hp
    rcases List.mem_append.mp hp with hp | hp
    · exact hAclosed p hp
    · rw [List.mem_singleton.mp hp] at hpid
      exact absurd (hpid ▸ h.current_valid i hi) (Nat.lt_irrefl _)

theorem createOffer_spec (st : RTCState) (h : Inv st) :
    Inv (createOffer st).1 ∧
    liveIds (createOffer st).1 = [st.nextId] ∧
    (∀ i, st.currentPc = some i →
      ∀ p ∈ (createOffer st).1.pcs, p.id = i → p.closed = true) := by
  obtain ⟨h1, h2, h3⟩ := createPeerConnection_spec st h
  have hf : ∀ p : PeerConnection,
      ({ p with localDesc := some (createOfferDesc (createPeerConnection st).2) }).id = p.id ∧
      ({ p with localDesc := some (createOfferDesc (createPeerConnection st).2) }).closed
        = p.closed := fun p => ⟨rfl, rfl⟩
  refine ⟨inv_updatePc _ _ _ hf h1, ?_, ?_⟩
  · rw [show createOffer st = (setLocalDescriptionOn (createPeerConnection st).1
      (createPeerConnection st).2 (createOfferDesc (createPeerConnection st).2),
      createOfferDesc (createPeerConnection st).2) from rfl]
    exact (liveIds_updatePc _ _ _ hf).trans h2
  · intro i hi
    exact updatePc_allClosed _ _ _ hf i (h3 i hi)

theorem handleOffer_spec (st : RTCState) (o : Option SessionDesc) (h : Inv st) :
    Inv (handleOffer st o).1 ∧
    liveIds (handleOffer st o).1 = [st.nextId] ∧
    (∀ i, st.currentPc = some i →
      ∀ p ∈ (handleOffer st o).1.pcs, p.id = i → p.closed = true) := by
  obtain ⟨h1, h2, h3⟩ := createPeerConnection_spec st h
  have hfr : ∀ p : PeerConnection,
      ({ p with remoteDesc := o }).id = p.id ∧
      ({ p with remoteDesc := o }).closed = p.closed := fun p => ⟨rfl, rfl⟩
  have hfl : ∀ p : PeerConnection,
      ({ p with localDesc := some (createAnswerDesc (createPeerConnection st).2) }).id = p.id ∧
      ({ p with localDesc := some (createAnswerDesc (createPeerConnection st).2) }).closed
        = p.closed := fun p => ⟨rfl, rfl⟩
  refine ⟨inv_updatePc _ _ _ hfl (inv_updatePc _ _ _ hfr h1), ?_, ?_⟩
  · exact ((liveIds_updatePc _ _ _ hfl).trans (liveIds_updatePc _ _ _ hfr)).trans h2
  · intro i hi
    exact updatePc_allClosed _ _ _ hfl i (updatePc_allClosed _ _ _ hfr i (h3 i hi))

end RTC

/-- Claim C5: the controller holds at most one live peer connection: both
operations that create a fresh connection — call initiation (`createOffer`)
and inbound-offer handling (`handleOffer`) — first close any existing
connection, so afterwards exactly the freshly-allocated connection is live,
the bookkeeping invariant is preserved, every connection carrying the
previously-current identity is closed, and two consecutive call initiations
leave at most one live connection. -/
theorem C5_single_active_link (st : RTC.RTCState) (o : Option SessionDesc)
    (h : RTC.Inv st) :
    (RTC.Inv (RTC.createOffer st).1 ∧ RTC.liveIds (RTC.createOffer st).1 = [st.nextId]) ∧
    (RTC.Inv (RTC.handleOffer st o).1 ∧
      RTC.liveIds (RTC.handleOffer st o).1 = [st.nextId]) ∧
    (∀ i, st.currentPc = some i →
      ∀ p ∈ (RTC.createOffer st).1.pcs, p.id = i → p.closed = true) ∧
    (∀ i, st.currentPc = some i →
      ∀ p ∈ (RTC.handleOffer st o).1.pcs, p.id = i → p.closed = true) ∧
    (RTC.liveIds (RTC.createOffer (RTC.createOffer st).1).1).length ≤ 1 := by
  obtain ⟨hc1, hc2, hc3⟩ := RTC.createOffer_spec st h
  obtain ⟨hh1, hh2, hh3⟩ := RTC.handleOffer_spec st o h
  refine ⟨⟨hc1, hc2⟩, ⟨hh1, hh2⟩, hc3, hh3, ?_⟩
  rw [(RTC.createOffer_spec (RTC.createOffer st).1 hc1).2.1]
  exact Nat.le_refl 1

/-- Claim C5 witness: two consecutive call initiations from a freshly mounted
controller leave at most one live peer connection. -/
theorem C5_single_active_link_witness :
    (RTC.liveIds (RTC.createOffer (RTC.createOffer {}).1).1).length ≤ 1 :=
  (C5_single_active_link {} none
    ⟨by simp, by simp, by simp, by simp⟩).2.2.2.2

namespace Controller

theorem handle_filtered (st : CtrlState) (m : SignalingMessage)
    (h : targetMismatch m.target st.clientId = true) :
    handleWebSocketMessage st m = (st, []) := by
  unfold handleWebSocketMessage
  rw [if_pos h]

theorem handle_register (st : CtrlState) (m : SignalingMessage)
    (hf : targetMismatch m.target st.clientId = false)
    (ht : m.type? = some "register") :
    handleWebSocketMessage st m = (st, []) := by
  unfold handleWebSocketMessage
  rw [if_neg (by simp [hf]), if_pos ht]

theorem handle_offer_case (st : CtrlState) (m : SignalingMessage)
    (hf : targetMismatch m.target st.clientId = false)
    (ht : m.type? = some "offer") :
    handleWebSocketMessage st m =
      ({ st with callState := .receiving, targetClientId := m.fromId,
                 rtc := (RTC.handleOffer st.rtc m.offer).1 },
       sendMessage
         { st with callState := .receiving, targetClientId := m.fromId,
                   rtc := (RTC.handleOffer st.rtc m.offer).1 }
         { type? := some "answer", answer := some (RTC.handleOffer st.rtc m.offer).2,
           target := m.fromId }) := by
  unfold handleWebSocketMessage
  rw [if_neg (by simp [hf]), if_neg (by simp [ht]), if_pos ht]

theorem handle_answer (st : CtrlState) (m : SignalingMessage)
    (hf : targetMismatch m.target st.clientId = false)
    (ht : m.type? = some "answer") :
    handleWebSocketMessage st m =
      ({ st with callState := .connected,
                 rtc := RTC.setRemoteDescriptionOpt st.rtc m.answer }, []) := by
  unfold handleWebSocketMessage
  rw [if_neg (by simp [hf]), if_neg (by simp [ht]), if_neg (by simp [ht]), if_pos ht]

theorem handle_ice (st : CtrlState) (m : SignalingMessage)
    (hf : targetMismatch m.target st.clientId = false)
    (ht : m.type? = some "ice-candidate") :
    handleWebSocketMessage st m =
      ({ st with rtc := RTC.addIceCandidate st.rtc m.candidate }, []) := by
  unfold handleWebSocketMessage
  rw [if_neg (by simp [hf]), if_neg (by simp [ht]), if_neg (by simp [ht]),
    if_neg (by simp [ht]), if_pos ht]

theorem initiateCall_callState (st : CtrlState) :
    (initiateCall st).1.callState = CallState.calling := rfl

end Controller

namespace RTC

theorem addIceCandidate_noop_noLink (st : RTCState) (cd : Option CandidateData)
    (h : st.currentPc = none) : addIceCandidate st cd = st := by
  unfold addIceCandidate
  rw [h]

theorem addIceCandidate_noop_badCandidate (st : RTCState) (cd : Option CandidateData)
    (h : cd = none ∨ ∃ c, cd = some c ∧ c.wellFormed = false) :
    addIceCandidate st cd = st := by
  unfold addIceCandidate
  rcases h with rfl | ⟨c, rfl, hc⟩
  · cases st.currentPc <;> rfl
  · cases hcur : st.currentPc with
    | none => rfl
    | some i => simp [hc]

theorem setRemoteDescriptionOpt_noLink (st : RTCState) (d : Option SessionDesc)
    (h : st.currentPc = none) : setRemoteDescriptionOpt st d = st := by
  unfold setRemoteDescriptionOpt
  rw [h]

end RTC

/-- Claim C3 counterexample: from 'idle', one inbound targeted 'answer'
reaches 'connected' directly — the answer case of the handler has no state
guard, so 'connected' is reachable from 'idle' in one step, contradicting
that only 'calling' and 'receiving' are one-step reachable from 'idle' and
that 'connected' is reachable only through 'calling' or 'receiving'. -/
theorem C3_idle_answer_reaches_connected :
    ctrl0.callState = Controller.CallState.idle ∧
    (Controller.ctrlStep ctrl0 (.inbound answerWire)).1.callState =
      Controller.CallState.connected := by
  refine ⟨rfl, by decide⟩

/-- Claim C3 (amended): the handler is not state-guarded. 'connected' is
entered exactly by an inbound targeted 'answer', from any state (including
'idle'); local initiation sets 'calling' from any state (the idle-only
restriction lives in the UI button guard); an inbound targeted 'offer' sets
'receiving' from any state; and no other event enters 'connected' — in
particular the receiving side stays in 'receiving' after sending its local
answer. -/
theorem C3_state_reachability (st : Controller.CtrlState) (e : Controller.Event) :
    ((Controller.ctrlStep st e).1.callState = Controller.CallState.connected →
      st.callState = Controller.CallState.connected ∨
      ∃ m, e = Controller.Event.inbound m ∧ m.type? = some "answer" ∧
        Controller.targetMismatch m.target st.clientId = false) ∧
    (∀ m, e = Controller.Event.inbound m → m.type? = some "answer" →
      Controller.targetMismatch m.target st.clientId = false →
      (Controller.ctrlStep st e).1.callState = Controller.CallState.connected) ∧
    ((Controller.ctrlStep st Controller.Event.localInitiate).1.callState =
      Controller.CallState.calling) ∧
    (∀ m, e = Controller.Event.inbound m → m.type? = some "offer" →
      Controller.targetMismatch m.target st.clientId = false →
      (Controller.ctrlStep st e).1.callState = Controller.CallState.receiving) := by
  refine ⟨?_, ?_, rfl, ?_⟩
  · intro h
    cases e with
    | localInitiate =>
      rw [show Controller.ctrlStep st .localInitiate = Controller.initiateCall st from rfl,
        Controller.initiateCall_callState st] at h
      exact absurd h (by decide)
    | inbound m =>
      rw [show Controller.ctrlStep st (.inbound m) =
        Controller.handleWebSocketMessage st m from rfl] at h
      cases hf : Controller.targetMismatch m.target st.clientId with
      | true =>
        rw [Controller.handle_filtered st m hf] at h
        exact Or.inl h
      | false =>
        by_cases h1 : m.type? = some "register"
        · rw [Controller.handle_register st m hf h1] at h
          exact Or.inl h
        · by_cases h2 : m.type? = some "offer"
          · rw [Controller.handle_offer_case st m hf h2] at h
            exact Controller.CallState.noConfusion h
          · by_cases h3 : m.type? = some "answer"
            · exact Or.inr ⟨m, rfl, h3, hf⟩
            · by_cases h4 : m.type? = some "ice-candidate"
              · rw [Controller.handle_ice st m hf h4] at h
                exact Or.inl h
              · have : Controller.handleWebSocketMessage st m = (st, []) := by
                  unfold Controller.handleWebSocketMessage
                  rw [if_neg (by simp [hf]), if_neg h1, if_neg h2, if_neg h3, if_neg h4]
                rw [this] at h
                exact Or.inl h
  · intro m he ht hfil
    subst he
    rw [show Controller.ctrlStep st (.inbound m) =
      Controller.handleWebSocketMessage st m from rfl,
      Controller.handle_answer st m hfil ht]
  · intro m he ht hfil
    subst he
    rw [show Controller.ctrlStep st (.inbound m) =
      Controller.handleWebSocketMessage st m from rfl,
      Controller.handle_offer_case st m hfil ht]

/-- Claim C3 witness: the amended characterization applied at a concrete
controller: a targeted inbound offer moves it to 'receiving'. -/
theorem C3_state_reachability_witness :
    (Controller.ctrlStep ctrl0 (Controller.Event.inbound offerWire)).1.callState =
      Controller.CallState.receiving :=
  (C3_state_reachability ctrl0 (.inbound offerWire)).2.2.2 offerWire rfl rfl (by decide)

/-- Claim C4 counterexample: with no active peer connection (after a local
reset), an inbound targeted 'answer' is not a no-op: the optional chaining
skips the description application, but `setCallState('connected')` has
already run, so the call state changes from 'idle' to 'connected'. -/
theorem C4_answer_without_link_changes_state :
    ctrlReset.rtc.currentPc = none ∧
    ctrlReset.callState = Controller.CallState.idle ∧
    (Controller.handleWebSocketMessage ctrlReset answerWire).1.callState =
      Controller.CallState.connected := by
  refine ⟨rfl, rfl, by decide⟩

/-- Claim C4 (amended): an inbound targeted 'ice-candidate' with no active
peer connection is a no-op, and so is one whose candidate payload is absent
or malformed (the construction failure is caught and only logged); an
inbound targeted 'answer' with no active peer connection skips the
description application but still sets the call state to 'connected',
leaving every other component of the controller state unchanged and sending
nothing — no fault is raised in any of these cases. -/
theorem C4_no_link_behaviour (st : Controller.CtrlState) (m : SignalingMessage)
    (hf : Controller.targetMismatch m.target st.clientId = false) :
    (m.type? = some "ice-candidate" → st.rtc.currentPc = none →
      Controller.handleWebSocketMessage st m = (st, [])) ∧
    (m.type? = some "ice-candidate" →
      (m.candidate = none ∨ ∃ c, m.candidate = some c ∧ c.wellFormed = false) →
      Controller.handleWebSocketMessage st m = (st, [])) ∧
    (m.type? = some "answer" → st.rtc.currentPc = none →
      Controller.handleWebSocketMessage st m =
        ({ st with callState := .connected }, [])) := by
  refine ⟨?_, ?_, ?_⟩
  · intro ht hcur
    rw [Controller.handle_ice st m hf ht, RTC.addIceCandidate_noop_noLink st.rtc m.candidate hcur]
  · intro ht hbad
    rw [Controller.handle_ice st m hf ht,
      RTC.addIceCandidate_noop_badCandidate st.rtc m.candidate hbad]
  · intro ht hcur
    rw [Controller.handle_answer st m hf ht,
      RTC.setRemoteDescriptionOpt_noLink st.rtc m.answer hcur]

/-- Claim C4 witness: the amended statement at a reset controller and a
targeted ICE candidate — a strict no-op. -/
theorem C4_no_link_behaviour_witness :
    Controller.handleWebSocketMessage ctrlReset iceWire = (ctrlReset, []) :=
  (C4_no_link_behaviour ctrlReset iceWire (by decide)).1 rfl rfl

/-- Claim C8 counterexample: a message whose `target` field is present but
equal to the empty string (which differs from the controller's identity
"1111") is not discarded: the JavaScript truthiness test
`message.target && ...` treats the empty string as absent, the 'answer' is
processed and the call state observably changes from 'idle' to 'connected'. -/
theorem C8_empty_target_not_discarded :
    emptyTargetAnswer.target = some "" ∧ "" ≠ ctrl0.clientId ∧
    (Controller.handleWebSocketMessage ctrl0 emptyTargetAnswer).1.callState =
      Controller.CallState.connected ∧
    (Controller.handleWebSocketMessage ctrl0 emptyTargetAnswer).1.callState ≠
      ctrl0.callState := by
  refine ⟨rfl, by decide, by decide, by decide⟩

/-- Claim C8 (amended): a message whose `target` is present, non-empty and
different from this controller's identity is discarded: the state is
unchanged and nothing is sent (an empty-string `target` is instead treated
as absent, i.e. broadcast, by the truthiness test). -/
theorem C8_target_filter (st : Controller.CtrlState) (m : SignalingMessage) (t : String)
    (ht : m.target = some t) (hne : t ≠ "") (hid : t ≠ st.clientId) :
    Controller.handleWebSocketMessage st m = (st, []) := by
  apply Controller.handle_filtered
  rw [show Controller.targetMismatch m.target st.clientId =
    Controller.targetMismatch (some t) st.clientId by rw [ht]]
  show (decide (t ≠ "") && decide (t ≠ st.clientId)) = true
  simp [hne, hid]

/-- Claim C8 witness: an answer targeted at "9999" leaves the controller of
identity "1111" untouched. -/
theorem C8_target_filter_witness :
    Controller.handleWebSocketMessage ctrl0 answerOther = (ctrl0, []) :=
  C8_target_filter ctrl0 answerOther "9999" rfl (by decide) (by decide)

/-- Claim C10: an inbound targeted 'offer' is processed the same way in every
controller state — no state guard: the controller moves to 'receiving',
replaces its target peer with the offer's sender, rebuilds the peer
connection by `handleOffer` (closing every connection carrying the
previously-current identity), and sends an 'answer' targeted back at the
sender, stamped with its own identity, whenever the socket is open. -/
theorem C10_offer_any_state (st : Controller.CtrlState) (m : SignalingMessage)
    (ht : m.type? = some "offer")
    (hf : Controller.targetMismatch m.target st.clientId = false)
    (hinv : RTC.Inv st.rtc) :
    (Controller.handleWebSocketMessage st m).1.callState =
      Controller.CallState.receiving ∧
    (Controller.handleWebSocketMessage st m).1.targetClientId = m.fromId ∧
    (Controller.handleWebSocketMessage st m).1.rtc = (RTC.handleOffer st.rtc m.offer).1 ∧
    (Controller.handleWebSocketMessage st m).2 =
      (if st.socketOpen then
        [{ type? := some "answer", answer := some (RTC.handleOffer st.rtc m.offer).2,
           target := m.fromId, fromId := some st.clientId }]
       else []) ∧
    (∀ i, st.rtc.currentPc = some i →
      ∀ p ∈ (Controller.handleWebSocketMessage st m).1.rtc.pcs, p.id = i →
        p.closed = true) := by
  rw [Controller.handle_offer_case st m hf ht]
  refine ⟨rfl, rfl, rfl, rfl, ?_⟩
  intro i hi
  exact (RTC.handleOffer_spec st.rtc m.offer hinv).2.2 i hi

/-- Claim C10 witness: a controller already in 'connected' with a live peer
connection processes a targeted offer just like an idle one. -/
theorem C10_offer_any_state_witness :
    (Controller.handleWebSocketMessage ctrlBusy offerWire).1.callState =
      Controller.CallState.receiving :=
  (C10_offer_any_state ctrlBusy offerWire rfl (by decide)
    ⟨by decide, by decide, by decide,
     fun i hi => by injection hi with h; rw [← h]; decide⟩).1

namespace Identity

theorem length_le_toDigitsCore (b : Nat) :
    ∀ (fuel n : Nat) (ds : List Char), ds.length ≤ (Nat.toDigitsCore b fuel n ds).length := by
  intro fuel
  induction fuel with
  | zero => intro n ds; exact Nat.le_refl _
  | succ f ih =>
    intro n ds
    show ds.length ≤ (if n / b = 0 then Nat.digitChar (n % b) :: ds
        else Nat.toDigitsCore b f (n / b) (Nat.digitChar (n % b) :: ds)).length
    split
    · exact Nat.le_succ _
    · exact Nat.le_trans (Nat.le_succ _) (ih (n / b) (Nat.digitChar (n % b) :: ds))

theorem toDigitsCore_length_pos (b fuel n : Nat) (ds : List Char) (h : 0 < fuel) :
    ds.length < (Nat.toDigitsCore b fuel n ds).length := by
  cases fuel with
  | zero => exact absurd h (Nat.lt_irrefl 0)
  | succ f =>
    show ds.length < (if n / b = 0 then Nat.digitChar (n % b) :: ds
        else Nat.toDigitsCore b f (n / b) (Nat.digitChar (n % b) :: ds)).length
    split
    · exact Nat.lt_succ_self _
    · exact Nat.lt_of_lt_of_le (Nat.lt_succ_self _)
        (length_le_toDigitsCore b f (n / b) (Nat.digitChar (n % b) :: ds))

theorem repr_ne_empty (n : Nat) : Nat.repr n ≠ "" := by
  intro h
  have hpos : 0 < (Nat.repr n).length :=
    toDigitsCore_length_pos 10 (n + 1) n [] (Nat.succ_pos n)
  rw [h] at hpos
  exact Nat.lt_irrefl 0 hpos

theorem freshId_ne_empty (rand : Nat) : freshId rand ≠ "" :=
  repr_ne_empty (1000 + rand % 9000)

theorem wsRun_register (c : Component) (events : List WsEvent) :
    ∀ msg ∈ wsRun c events, msg.clientId? = some c.clientId := by
  induction events with
  | nil => intro msg h; cases h
  | cons ev rest ih =>
    intro msg h
    cases ev with
    | sockOpened =>
      rcases List.mem_cons.mp h with rfl | h
      · rfl
      · exact ih msg h
    | dropped => exact ih msg h

theorem generateClientId_stable (store : Option String) (r1 r2 : Nat) :
    (generateClientId (generateClientId store r1).2 r2).1 =
      (generateClientId store r1).1 := by
  cases store with
  | none =>
    show (generateClientId (some (freshId r1)) r2).1 = freshId r1
    simp [generateClientId, freshId_ne_empty r1]
  | some id =>
    by_cases hid : id = ""
    · subst hid
      show (generateClientId (some (freshId r1)) r2).1 = freshId r1
      simp [generateClientId, freshId_ne_empty r1]
    · have h1 : generateClientId (some id) r1 = (id, some id) := by
        simp [generateClientId, hid]
      rw [h1]
      simp [generateClientId, hid]

end Identity

/-- Claim C9: the client identity is generated once when absent from the
persistent store and is stable thereafter: over any sequence of channel
drops and fixed-delay reconnections, every register message the hook sends
carries the identity captured at mount, and mounting again against the
persisted store (a process restart) yields the same identity. -/
theorem C9_identity_stable (store : Option String) (r1 r2 : Nat)
    (events : List Identity.WsEvent) :
    (∀ msg ∈ Identity.wsRun (Identity.mountComponent store r1) events,
      msg.clientId? = some (Identity.mountComponent store r1).clientId) ∧
    (Identity.mountComponent (Identity.mountComponent store r1).store r2).clientId =
      (Identity.mountComponent store r1).clientId :=
  ⟨Identity.wsRun_register (Identity.mountComponent store r1) events,
   Identity.generateClientId_stable store r1 r2⟩

/-- Claim C9 witness: a concrete drop-and-reconnect trace and a remount
against the persisted store both preserve the identity. -/
theorem C9_identity_stable_witness :
    (Identity.mountComponent (Identity.mountComponent (some "4321") 5).store 77).clientId =
      (Identity.mountComponent (some "4321") 5).clientId :=
  (C9_identity_stable (some "4321") 5 77
    [Identity.WsEvent.sockOpened, Identity.WsEvent.dropped, Identity.WsEvent.sockOpened]).2
